import Mathlib

/-!
A shallow embedding of the vimgram AI client core (`src/ai/config.rs` and
`src/ai/client.rs`): configuration loading and persistence, the Gemini
completion transport, and the command interpreter that decodes model output
into a closed set of typed actions.

Rust strings are embedded as Lean `String`s; the Rust string operations used
by the source (`trim`, `starts_with`, `trim_start_matches`, `trim_end_matches`)
are embedded below over the character list. Machine integers that matter
(`u32` in `duration_seconds`, HTTP status codes) are `Nat`/`Int` with explicit
range checks. Fallible operations return `Except`. External I/O (the single
HTTP exchange, environment-variable lookup, the filesystem) is passed in as
explicit data, so every operation is a pure function of its inputs.
-/

namespace Vimgram

/-! ## Rust string operations -/

/-- Whitespace characters recognised by trimming (the ASCII subset Rust's
`char::is_whitespace` accepts; the embedded texts only ever use these). -/
def isWsChar (c : Char) : Bool :=
  c = ' ' || c = '\t' || c = '\n' || c = '\r'

/-- Drop whitespace from both ends of a character list. -/
def trimChars (cs : List Char) : List Char :=
  ((cs.dropWhile isWsChar).reverse.dropWhile isWsChar).reverse

/-- Embedding of Rust `str::trim`. -/
def rustTrim (s : String) : String :=
  ⟨trimChars s.data⟩

/-- Embedding of Rust `str::starts_with` for a string pattern. -/
def rustStartsWith (s pat : String) : Bool :=
  pat.data.isPrefixOf s.data

/-- Remove every successive occurrence of the pattern at the head of the
list; the fuel argument bounds the number of removals. -/
def dropMatchesAux : Nat → List Char → List Char → List Char
  | 0, cs, _ => cs
  | fuel + 1, cs, pat =>
    if !pat.isEmpty && pat.isPrefixOf cs then
      dropMatchesAux fuel (cs.drop pat.length) pat
    else cs

/-- Embedding of Rust `str::trim_start_matches` with a string pattern:
repeatedly removes the pattern from the front. -/
def rustTrimStartMatches (s pat : String) : String :=
  ⟨dropMatchesAux s.data.length s.data pat.data⟩

/-- Embedding of Rust `str::trim_end_matches` with a string pattern:
repeatedly removes the pattern from the back (realised on reversals). -/
def rustTrimEndMatches (s pat : String) : String :=
  ⟨(dropMatchesAux s.data.length s.data.reverse pat.data.reverse).reverse⟩

/-- Embedding of Rust `str::is_empty` (no bytes iff no characters). -/
def rustIsEmpty (s : String) : Bool :=
  s.data.isEmpty

/-! ## JSON values and decoding

The source delegates JSON to `serde_json`, an external library. Its
behaviour on the shapes this client exchanges is modelled here: a JSON value
tree, a text parser for the grammar fragment the client ever sees (numbers
restricted to integers, since every numeric field decoded below is a `u32`),
and the struct/enum decoders that `serde`'s derived `Deserialize`
implementations perform (missing `Option` fields become `none`, unknown
object fields are ignored, `#[serde(default)]` fields fall back to their
default, and the `AICommand` enum is internally tagged by `action`). -/

inductive Json where
  | null
  | bool (b : Bool)
  | num (n : Int)
  | str (s : String)
  | arr (elems : List Json)
  | obj (fields : List (String × Json))

/-- First value stored under a key, when the value is an object. -/
def Json.getField (j : Json) (k : String) : Option Json :=
  match j with
  | .obj fields => fields.lookup k
  | _ => none

def skipWsChars (cs : List Char) : List Char :=
  cs.dropWhile isWsChar

def isDigitChar (c : Char) : Bool :=
  48 ≤ c.toNat && c.toNat ≤ 57

/-- Translate a JSON string escape; `\u` escapes are not modelled (no text
this development evaluates contains one). -/
def unescapeChar (c : Char) : Option Char :=
  if c = '"' then some '"'
  else if c = '\\' then some '\\'
  else if c = '/' then some '/'
  else if c = 'n' then some '\n'
  else if c = 't' then some '\t'
  else if c = 'r' then some '\r'
  else none

/-- Read the body of a string literal up to its closing quote. -/
def scanStringBody : Nat → List Char → Except String (List Char × List Char)
  | 0, _ => .error "string literal exhausted the input"
  | fuel + 1, cs =>
    match cs with
    | [] => .error "unterminated string literal"
    | '"' :: rest => .ok ([], rest)
    | '\\' :: rest =>
      match rest with
      | [] => .error "unterminated escape"
      | e :: rest2 =>
        match unescapeChar e with
        | some c =>
          match scanStringBody fuel rest2 with
          | .ok (body, rem) => .ok (c :: body, rem)
          | .error msg => .error msg
        | none => .error "unsupported escape"
    | c :: rest =>
      match scanStringBody fuel rest with
      | .ok (body, rem) => .ok (c :: body, rem)
      | .error msg => .error msg

def digitsToNat (ds : List Char) : Nat :=
  ds.foldl (fun acc c => acc * 10 + (c.toNat - 48)) 0

/-- Read an integer literal (optional minus sign, then digits). -/
def scanInteger (cs : List Char) : Except String (Int × List Char) :=
  match cs with
  | '-' :: rest =>
    let ds := rest.takeWhile isDigitChar
    if ds.isEmpty then .error "expected digits after minus sign"
    else .ok (-(digitsToNat ds : Int), rest.dropWhile isDigitChar)
  | _ =>
    let ds := cs.takeWhile isDigitChar
    if ds.isEmpty then .error "expected a number"
    else .ok ((digitsToNat ds : Int), cs.dropWhile isDigitChar)

mutual

/-- Parse one JSON value from the front of the input. -/
def scanValue : Nat → List Char → Except String (Json × List Char)
  | 0, _ => .error "value nesting exhausted the fuel"
  | fuel + 1, cs =>
    match skipWsChars cs with
    | [] => .error "expected a value, found end of input"
    | '{' :: rest =>
      match skipWsChars rest with
      | '}' :: rest2 => .ok (.obj [], rest2)
      | other => scanMembers fuel other
    | '[' :: rest =>
      match skipWsChars rest with
      | ']' :: rest2 => .ok (.arr [], rest2)
      | other => scanElements fuel other
    | '"' :: rest =>
      match scanStringBody rest.length rest with
      | .ok (body, rem) => .ok (.str ⟨body⟩, rem)
      | .error msg => .error msg
    | 'n' :: rest =>
      if ['u', 'l', 'l'].isPrefixOf rest then .ok (.null, rest.drop 3)
      else .error "unrecognised literal"
    | 't' :: rest =>
      if ['r', 'u', 'e'].isPrefixOf rest then .ok (.bool true, rest.drop 3)
      else .error "unrecognised literal"
    | 'f' :: rest =>
      if ['a', 'l', 's', 'e'].isPrefixOf rest then .ok (.bool false, rest.drop 4)
      else .error "unrecognised literal"
    | c :: rest =>
      if c = '-' || isDigitChar c then
        match scanInteger (c :: rest) with
        | .ok (n, rem) => .ok (.num n, rem)
        | .error msg => .error msg
      else .error "expected a value"

/-- Parse the members of an object, the opening brace and any leading
whitespace already consumed; requires at least one member. -/
def scanMembers : Nat → List Char → Except String (Json × List Char)
  | 0, _ => .error "object nesting exhausted the fuel"
  | fuel + 1, cs =>
    match cs with
    | '"' :: rest =>
      match scanStringBody rest.length rest with
      | .error msg => .error msg
      | .ok (keyBody, afterKey) =>
        match skipWsChars afterKey with
        | ':' :: afterColon =>
          match scanValue fuel afterColon with
          | .error msg => .error msg
          | .ok (v, afterVal) =>
            match skipWsChars afterVal with
            | ',' :: afterComma =>
              match scanMembers fuel (skipWsChars afterComma) with
              | .ok (.obj more, rem) => .ok (.obj ((⟨keyBody⟩, v) :: more), rem)
              | .ok _ => .error "object members must form an object"
              | .error msg => .error msg
            | '}' :: rem => .ok (.obj [(⟨keyBody⟩, v)], rem)
            | _ => .error "expected a comma or a closing brace"
        | _ => .error "expected a colon after an object key"
    | _ => .error "expected a string key"

/-- Parse the elements of an array, the opening bracket and any leading
whitespace already consumed; requires at least one element. -/
def scanElements : Nat → List Char → Except String (Json × List Char)
  | 0, _ => .error "array nesting exhausted the fuel"
  | fuel + 1, cs =>
    match scanValue fuel cs with
    | .error msg => .error msg
    | .ok (v, afterVal) =>
      match skipWsChars afterVal with
      | ',' :: afterComma =>
        match scanElements fuel afterComma with
        | .ok (.arr more, rem) => .ok (.arr (v :: more), rem)
        | .ok _ => .error "array elements must form an array"
        | .error msg => .error msg
      | ']' :: rem => .ok (.arr [v], rem)
      | _ => .error "expected a comma or a closing bracket"

end

/-- Parse a complete JSON document: one value and then only whitespace. -/
def jsonParse (s : String) : Except String Json :=
  match scanValue (s.data.length + 1) s.data with
  | .error msg => .error msg
  | .ok (j, rest) =>
    if (skipWsChars rest).isEmpty then .ok j
    else .error "trailing characters after the document"

/-! ## Configuration (`src/ai/config.rs`) -/

def default_model : String :=
  "gemini-2.0-flash"

def default_base_url : String :=
  "https://generativelanguage.googleapis.com/v1beta"

def default_enabled : Bool :=
  true

structure AIConfig where
  api_key : String
  model : String
  base_url : String
  enabled : Bool
deriving DecidableEq, Repr

/-- The `Default` impl for `AIConfig`: empty key, default model, base URL and enabled. -/
def AIConfig.default : AIConfig :=
  { api_key := "", model := default_model, base_url := default_base_url,
    enabled := default_enabled }

/-- Embedding of `AIConfig::is_ready`: configured and enabled. -/
def AIConfig.is_ready (c : AIConfig) : Bool :=
  c.enabled && !(rustIsEmpty c.api_key)

/-- The `serde` decoding of `AIConfig` from a JSON value: `api_key` is required,
the other three fields carry `#[serde(default = ...)]` fallbacks. -/
def decodeAIConfig (j : Json) : Except String AIConfig :=
  match j with
  | .obj _ =>
    match j.getField "api_key" with
    | some (.str api_key) =>
      match j.getField "model" with
      | some (.str model) =>
        match j.getField "base_url" with
        | some (.str base_url) =>
          match j.getField "enabled" with
          | some (.bool enabled) =>
            .ok { api_key, model, base_url, enabled }
          | some _ => .error "invalid type for field enabled"
          | none => .ok { api_key, model, base_url, enabled := default_enabled }
        | some _ => .error "invalid type for field base_url"
        | none =>
          match j.getField "enabled" with
          | some (.bool enabled) =>
            .ok { api_key, model, base_url := default_base_url, enabled }
          | some _ => .error "invalid type for field enabled"
          | none =>
            .ok { api_key, model, base_url := default_base_url,
                  enabled := default_enabled }
      | some _ => .error "invalid type for field model"
      | none =>
        match j.getField "base_url" with
        | some (.str base_url) =>
          match j.getField "enabled" with
          | some (.bool enabled) =>
            .ok { api_key, model := default_model, base_url, enabled }
          | some _ => .error "invalid type for field enabled"
          | none =>
            .ok { api_key, model := default_model, base_url,
                  enabled := default_enabled }
        | some _ => .error "invalid type for field base_url"
        | none =>
          match j.getField "enabled" with
          | some (.bool enabled) =>
            .ok { api_key, model := default_model, base_url := default_base_url,
                  enabled }
          | some _ => .error "invalid type for field enabled"
          | none => .ok AIConfig.default
    | some _ => .error "invalid type for field api_key"
    | none => .error "missing field api_key"
  | _ => .error "expected an object for AIConfig"

/-- The external inputs `AIConfig::load` reads: the `VIMGRAM_AI_KEY`
environment variable (`some` when `std::env::var` returns `Ok`, which
includes the variable being set to the empty string) and the persisted
file's contents (`some` when the config path resolves, the file exists and
`fs::read_to_string` succeeds). -/
structure LoadEnv where
  vimgram_ai_key : Option String
  configFileContents : Option String

/-- Embedding of `AIConfig::load`: the environment key wins outright; else a readable,
parsable persisted file; else the default configuration. Never fails. -/
def AIConfig.load (env : LoadEnv) : AIConfig :=
  match env.vimgram_ai_key with
  | some api_key => { AIConfig.default with api_key := api_key }
  | none =>
    match env.configFileContents with
    | some contents =>
      match (jsonParse contents).bind decodeAIConfig with
      | .ok config => config
      | .error _ => AIConfig.default
    | none => AIConfig.default

/-- The filesystem inputs `AIConfig::save` touches: whether a config path
resolves, and whether the directory creation and the file write succeed. -/
structure SaveFs where
  config_path : Option String
  create_dir_ok : Bool
  write_ok : Bool

/-- Embedding of `AIConfig::save`: its returned result paired with whether the serialized
configuration was written to the config file. With no resolvable config
path, the body is skipped entirely and `Ok(())` is returned. -/
def AIConfig.save (_c : AIConfig) (fs : SaveFs) : Except String Unit × Bool :=
  match fs.config_path with
  | none => (.ok (), false)
  | some _ =>
    if !fs.create_dir_ok then (.error "could not create the config directory", false)
    else if !fs.write_ok then (.error "could not write the config file", false)
    else (.ok (), true)

/-! ## Gemini wire types and the completion transport (`src/ai/client.rs`) -/

structure GeminiPart where
  text : String
deriving DecidableEq, Repr

structure GeminiContent where
  role : Option String
  parts : List GeminiPart
deriving DecidableEq, Repr

structure GeminiCandidate where
  content : GeminiContent
deriving DecidableEq, Repr

structure GeminiError where
  message : String
deriving DecidableEq, Repr

structure GeminiResponse where
  candidates : Option (List GeminiCandidate)
  error : Option GeminiError
deriving DecidableEq, Repr

structure GenerationConfig where
  temperature : ℚ
  max_output_tokens : Nat
deriving DecidableEq, Repr

structure GeminiRequest where
  contents : List GeminiContent
  system_instruction : Option GeminiContent
  generation_config : Option GenerationConfig
deriving DecidableEq, Repr

inductive AIError where
  | NotConfigured
  | NetworkError (diag : String)
  | ApiError (msg : String)
  | ParseError (msg : String)
  | RateLimited (seconds : Nat)
deriving DecidableEq, Repr

/-- Parsed AI command (`AICommand`), internally tagged by `action`;
`duration_seconds` is a `u32`. -/
inductive AICommand where
  | Mute (duration_seconds : Nat)
  | Unmute
  | Search (query : String) (from_user : Option String)
  | Send (send_to : String) (text : String)  -- the source field `to` is a reserved token here
  | Reply (tone : Option String)
  | Unknown (reason : String)
deriving DecidableEq, Repr

/-- The `serde` decoding of a required string field. -/
def decodeStringField (j : Json) (k : String) : Except String String :=
  match j.getField k with
  | some (.str s) => .ok s
  | some _ => .error ("invalid type for field " ++ k)
  | none => .error ("missing field " ++ k)

/-- The `serde` decoding of an `Option<String>` field: absent or `null` is
`none`. -/
def decodeOptStringField (j : Json) (k : String) : Except String (Option String) :=
  match j.getField k with
  | none => .ok none
  | some .null => .ok none
  | some (.str s) => .ok (some s)
  | some _ => .error ("invalid type for field " ++ k)

/-- The `serde` decoding of the internally tagged `AICommand` enum: the `action`
field selects the variant, the remaining fields fill it in. -/
def decodeAICommand (j : Json) : Except String AICommand :=
  match j with
  | .obj _ =>
    match j.getField "action" with
    | some (.str tag) =>
      if tag = "mute" then
        match j.getField "duration_seconds" with
        | some (.num n) =>
          if 0 ≤ n ∧ n < 4294967296 then .ok (.Mute n.toNat)
          else .error "duration_seconds out of range for u32"
        | some _ => .error "invalid type for field duration_seconds"
        | none => .error "missing field duration_seconds"
      else if tag = "unmute" then .ok .Unmute
      else if tag = "search" then
        match decodeStringField j "query" with
        | .error e => .error e
        | .ok query =>
          match decodeOptStringField j "from_user" with
          | .error e => .error e
          | .ok from_user => .ok (.Search query from_user)
      else if tag = "send" then
        match decodeStringField j "to" with
        | .error e => .error e
        | .ok recipient =>
          match decodeStringField j "text" with
          | .error e => .error e
          | .ok text => .ok (.Send recipient text)
      else if tag = "reply" then
        match decodeOptStringField j "tone" with
        | .error e => .error e
        | .ok tone => .ok (.Reply tone)
      else if tag = "unknown" then
        match decodeStringField j "reason" with
        | .error e => .error e
        | .ok reason => .ok (.Unknown reason)
      else .error ("unknown variant " ++ tag)
    | some _ => .error "the action tag must be a string"
    | none => .error "missing field action"
  | _ => .error "expected an object carrying an action tag"

/-- The `serde` decoding of `GeminiPart` (`text` required). -/
def decodeGeminiPart (j : Json) : Except String GeminiPart :=
  match j with
  | .obj _ =>
    match j.getField "text" with
    | some (.str s) => .ok { text := s }
    | some _ => .error "invalid type for field text"
    | none => .error "missing field text"
  | _ => .error "expected an object for GeminiPart"

def decodeGeminiParts : List Json → Except String (List GeminiPart)
  | [] => .ok []
  | j :: js =>
    match decodeGeminiPart j with
    | .error e => .error e
    | .ok p =>
      match decodeGeminiParts js with
      | .error e => .error e
      | .ok ps => .ok (p :: ps)

/-- The `serde` decoding of `GeminiContent` (`role` optional, `parts` required). -/
def decodeGeminiContent (j : Json) : Except String GeminiContent :=
  match j with
  | .obj _ =>
    match decodeOptStringField j "role" with
    | .error e => .error e
    | .ok role =>
      match j.getField "parts" with
      | some (.arr elems) =>
        match decodeGeminiParts elems with
        | .error e => .error e
        | .ok parts => .ok { role, parts }
      | some _ => .error "invalid type for field parts"
      | none => .error "missing field parts"
  | _ => .error "expected an object for GeminiContent"

/-- The `serde` decoding of `GeminiCandidate` (`content` required). -/
def decodeGeminiCandidate (j : Json) : Except String GeminiCandidate :=
  match j with
  | .obj _ =>
    match j.getField "content" with
    | some c =>
      match decodeGeminiContent c with
      | .error e => .error e
      | .ok content => .ok { content }
    | none => .error "missing field content"
  | _ => .error "expected an object for GeminiCandidate"

def decodeGeminiCandidates : List Json → Except String (List GeminiCandidate)
  | [] => .ok []
  | j :: js =>
    match decodeGeminiCandidate j with
    | .error e => .error e
    | .ok c =>
      match decodeGeminiCandidates js with
      | .error e => .error e
      | .ok cs => .ok (c :: cs)

/-- The `serde` decoding of `GeminiError` (`message` required). -/
def decodeGeminiError (j : Json) : Except String GeminiError :=
  match j with
  | .obj _ =>
    match j.getField "message" with
    | some (.str message) => .ok { message }
    | some _ => .error "invalid type for field message"
    | none => .error "missing field message"
  | _ => .error "expected an object for GeminiError"

/-- The `serde` decoding of `GeminiResponse` (both fields optional). -/
def decodeGeminiResponse (j : Json) : Except String GeminiResponse :=
  match j with
  | .obj _ =>
    match j.getField "candidates" with
    | some (.arr elems) =>
      match decodeGeminiCandidates elems with
      | .error e => .error e
      | .ok cs =>
        match j.getField "error" with
        | none => .ok { candidates := some cs, error := none }
        | some .null => .ok { candidates := some cs, error := none }
        | some ej =>
          match decodeGeminiError ej with
          | .error e => .error e
          | .ok ge => .ok { candidates := some cs, error := some ge }
    | some .null =>
      match j.getField "error" with
      | none => .ok { candidates := none, error := none }
      | some .null => .ok { candidates := none, error := none }
      | some ej =>
        match decodeGeminiError ej with
        | .error e => .error e
        | .ok ge => .ok { candidates := none, error := some ge }
    | some _ => .error "invalid type for field candidates"
    | none =>
      match j.getField "error" with
      | none => .ok { candidates := none, error := none }
      | some .null => .ok { candidates := none, error := none }
      | some ej =>
        match decodeGeminiError ej with
        | .error e => .error e
        | .ok ge => .ok { candidates := none, error := some ge }
  | _ => .error "expected an object for GeminiResponse"

/-- The observable outcome of the one outbound HTTP exchange: a transport
failure, or a response with its status and body (`none` when reading the
body fails). -/
inductive HttpOutcome where
  | netFail (diag : String)
  | resp (status : Nat) (body : Option String)
deriving DecidableEq, Repr

/-- Embedding of `reqwest::StatusCode::is_success`: the 2xx range. -/
def isSuccessStatus (s : Nat) : Bool :=
  decide (200 ≤ s ∧ s < 300)

/-- Modelled from the spec: the HTTP library renders a status for display
carrying its numeric code (the canonical reason phrase is not modelled; no
claim depends on it). -/
def statusDisplay (s : Nat) : String :=
  toString s

/-- Embedding of `Response::json::<GeminiResponse>()`: read the body, parse it as JSON
and decode the response structure. -/
def responseJson (body : Option String) : Except String GeminiResponse :=
  match body with
  | none => .error "error reading the response body"
  | some s => (jsonParse s).bind decodeGeminiResponse

namespace AIClient

/-- The request payload `complete_with_system` assembles: the user message
as a role-tagged content block, the optional system instruction untagged,
and fixed generation parameters (temperature 0.7, 2048 output tokens). -/
def buildRequest (system : Option String) (user : String) : GeminiRequest :=
  { contents := [{ role := some "user", parts := [{ text := user }] }],
    system_instruction := system.map fun s => { role := none, parts := [{ text := s }] },
    generation_config := some { temperature := 7 / 10, max_output_tokens := 2048 } }

/-- The request URL: `{base_url}/models/{model}:generateContent?key={api_key}`. -/
def requestUrl (c : AIConfig) : String :=
  c.base_url ++ "/models/" ++ c.model ++ ":generateContent?key=" ++ c.api_key

/-- Embedding of `AIClient::complete_with_system`, as a function of the configuration,
the messages, and the outcome of the single HTTP exchange. -/
def complete_with_system (config : AIConfig) (system : Option String)
    (user : String) (outcome : HttpOutcome) : Except AIError String :=
  if !config.is_ready then .error .NotConfigured
  else
    match outcome with
    | .netFail diag => .error (.NetworkError diag)
    | .resp status body =>
      if status = 429 then .error (.RateLimited 60)
      else if !isSuccessStatus status then
        .error (.ApiError (statusDisplay status ++ ": " ++ body.getD ""))
      else
        match responseJson body with
        | .error e => .error (.ParseError e)
        | .ok gr =>
          match gr.error with
          | some err => .error (.ApiError err.message)
          | none =>
            match (gr.candidates.bind fun cs => cs.head?).bind
                (fun c => c.content.parts.head?) with
            | some p => .ok p.text
            | none => .error (.ParseError "No response from AI")

/-- Embedding of `AIClient::complete`: completion with no system message. -/
def complete (config : AIConfig) (prompt : String) (outcome : HttpOutcome) :
    Except AIError String :=
  complete_with_system config none prompt outcome

/-- The system instruction `parse_command` sends (braces written `\x7b`/`\x7d`). -/
def parseCommandSystem : String :=
  "You are a Telegram command parser. Convert natural language to JSON actions.\nAvailable actions:\n- \x7b\"action\": \"mute\", \"duration_seconds\": <int>\x7d - Mute current chat (e.g., 3600 for 1 hour)\n- \x7b\"action\": \"unmute\"\x7d - Unmute current chat\n- \x7b\"action\": \"search\", \"query\": \"<text>\", \"from_user\": \"<optional username>\"\x7d - Search messages\n- \x7b\"action\": \"send\", \"to\": \"<username>\", \"text\": \"<message>\"\x7d - Send message to user\n- \x7b\"action\": \"reply\", \"tone\": \"<casual|formal|technical>\"\x7d - Generate a reply draft\n- \x7b\"action\": \"unknown\", \"reason\": \"<explanation>\"\x7d - If you can't understand the command\n\nRespond with ONLY valid JSON, no explanation."

/-- The fence-stripping step of `parse_command`: trim, and when the text
opens with a triple backtick, shave the (optionally `json`-tagged) opening
fence and the trailing fence and trim again. -/
def stripCodeFence (response : String) : String :=
  let trimmed := rustTrim response
  if rustStartsWith trimmed "```" then
    rustTrim (rustTrimEndMatches
      (rustTrimStartMatches (rustTrimStartMatches trimmed "```json") "```") "```")
  else trimmed

/-- The decoding step of `parse_command` applied to the raw completion
text: strip any code fence, then `serde_json::from_str::<AICommand>`,
wrapping a decode failure with the diagnostic and the raw text. -/
def parseCommandText (response : String) : Except AIError AICommand :=
  match (jsonParse (stripCodeFence response)).bind decodeAICommand with
  | .ok cmd => .ok cmd
  | .error e =>
    .error (.ParseError ("Invalid JSON: " ++ e ++ " - Response: " ++ response))

/-- Embedding of `AIClient::parse_command`: complete with the parser system instruction,
then decode the completion text. -/
def parse_command (config : AIConfig) (input : String) (outcome : HttpOutcome) :
    Except AIError AICommand :=
  match complete_with_system config (some parseCommandSystem) input outcome with
  | .error e => .error e
  | .ok response => parseCommandText response

/-- The tone-specific instruction sentence of `generate_reply`; the wildcard
arm absorbs `Some("casual")`, any other tone, and `None`. -/
def toneInstruction (tone : Option String) : String :=
  if tone = some "formal" then "Use a professional, formal tone."
  else if tone = some "technical" then "Use a detailed, technical tone with specific terminology."
  else "Use a friendly, casual tone."

/-- The system frame of `generate_reply`, with the tone instruction spliced in. -/
def generateReplySystem (tone : Option String) : String :=
  "You are helping draft a reply in a chat application.\nGiven the chat history, generate a helpful, concise reply.\n"
    ++ toneInstruction tone
    ++ "\nDo NOT include greetings unless the conversation warrants it.\nKeep the reply brief and natural.\nRespond with ONLY the reply text, no quotes or explanation."

/-- The user message of `generate_reply`:
`format!("Chat history:\n{}\n\nDraft a reply:", context)`. -/
def generateReplyUserMessage (context : String) : String :=
  "Chat history:\n" ++ context ++ "\n\nDraft a reply:"

/-- Embedding of `AIClient::generate_reply`: completion under the reply system frame; the
completion text is returned unmodified. -/
def generate_reply (config : AIConfig) (context : String) (tone : Option String)
    (outcome : HttpOutcome) : Except AIError String :=
  complete_with_system config (some (generateReplySystem tone))
    (generateReplyUserMessage context) outcome

/-- The system instruction `code_assist` sends. -/
def codeAssistSystem : String :=
  "You are a coding assistant integrated into a terminal app.\n- Respond concisely\n- Use markdown code blocks with language tags\n- For debugging, explain the issue clearly\n- Provide working, practical code examples"

/-- Embedding of `AIClient::code_assist`: completion under the coding system frame. -/
def code_assist (config : AIConfig) (query : String) (outcome : HttpOutcome) :
    Except AIError String :=
  complete_with_system config (some codeAssistSystem) query outcome

end AIClient

/-! ## General lemmas about the embedding -/

theorem rustIsEmpty_eq_true_iff (s : String) : rustIsEmpty s = true ↔ s = "" := by
  obtain ⟨d⟩ := s
  cases d with
  | nil => simp [rustIsEmpty]
  | cons c cs =>
    simp [rustIsEmpty]
    intro h
    have : (String.mk (c :: cs)).data = ("" : String).data := by rw [h]
    simp at this

theorem is_ready_iff (c : AIConfig) :
    c.is_ready = true ↔ (c.enabled = true ∧ c.api_key ≠ "") := by
  unfold AIConfig.is_ready
  rw [Bool.and_eq_true, Bool.not_eq_true']
  constructor
  · rintro ⟨he, hk⟩
    refine ⟨he, fun hek => ?_⟩
    rw [hek] at hk
    rw [(rustIsEmpty_eq_true_iff "").mpr rfl] at hk
    exact absurd hk (by decide)
  · rintro ⟨he, hk⟩
    refine ⟨he, ?_⟩
    cases hie : rustIsEmpty c.api_key with
    | false => rfl
    | true => exact absurd ((rustIsEmpty_eq_true_iff _).mp hie) hk

theorem is_ready_eq_false (c : AIConfig) (h : c.api_key = "" ∨ c.enabled = false) :
    c.is_ready = false := by
  cases hr : c.is_ready with
  | false => rfl
  | true =>
    obtain ⟨he, hk⟩ := (is_ready_iff c).mp hr
    rcases h with h | h
    · exact absurd h hk
    · rw [he] at h
      exact absurd h (by decide)

theorem complete_with_system_not_ready (c : AIConfig) (hc : c.is_ready = false)
    (system : Option String) (user : String) (outcome : HttpOutcome) :
    AIClient.complete_with_system c system user outcome = .error .NotConfigured := by
  unfold AIClient.complete_with_system
  rw [hc]
  rfl

/-- For a ready configuration, `complete_with_system` on a delivered
response reduces to the status dispatch. -/
theorem complete_with_system_resp (c : AIConfig) (hc : c.is_ready = true)
    (system : Option String) (user : String) (status : Nat) (body : Option String) :
    AIClient.complete_with_system c system user (.resp status body) =
      (if status = 429 then .error (.RateLimited 60)
       else if !isSuccessStatus status then
         .error (.ApiError (statusDisplay status ++ ": " ++ body.getD ""))
       else
         match responseJson body with
         | .error e => .error (.ParseError e)
         | .ok gr =>
           match gr.error with
           | some err => .error (.ApiError err.message)
           | none =>
             match (gr.candidates.bind fun cs => cs.head?).bind
                 (fun c => c.content.parts.head?) with
             | some p => .ok p.text
             | none => .error (.ParseError "No response from AI")) := by
  unfold AIClient.complete_with_system
  rw [hc]
  rfl

/-! ## The claims -/

/-- C1: on a 2xx response whose body parses as the expected structure,
`complete` reports `ApiError` with the error field's message when that
field is present; otherwise it returns the first candidate's first content
part's text, and `ParseError "No response from AI"` when the candidates are
absent or empty or the first candidate's content has no parts. The body
`{"candidates":[{"content":{"parts":[{"text":"hello"}]}}]}` yields
`"hello"`. -/
theorem complete_success_response (config : AIConfig) (system : Option String)
    (user : String) (status : Nat) (body : Option String) (gr : GeminiResponse)
    (hready : config.is_ready = true)
    (hstatus : isSuccessStatus status = true)
    (hbody : responseJson body = .ok gr) :
    (∀ err, gr.error = some err →
      AIClient.complete_with_system config system user (.resp status body) =
        .error (.ApiError err.message)) ∧
    (gr.error = none →
      (∀ c cs p ps, gr.candidates = some (c :: cs) → c.content.parts = p :: ps →
        AIClient.complete_with_system config system user (.resp status body) =
          .ok p.text) ∧
      ((gr.candidates = none ∨ gr.candidates = some [] ∨
          ∃ c cs, gr.candidates = some (c :: cs) ∧ c.content.parts = []) →
        AIClient.complete_with_system config system user (.resp status body) =
          .error (.ParseError "No response from AI"))) ∧
    AIClient.complete_with_system config system user
        (.resp 200 (some "\x7b\"candidates\":[\x7b\"content\":\x7b\"parts\":[\x7b\"text\":\"hello\"\x7d]\x7d\x7d]\x7d")) =
      .ok "hello" := by
  have hs := of_decide_eq_true hstatus
  have h429 : status ≠ 429 := by omega
  have hred : AIClient.complete_with_system config system user (.resp status body) =
      (match gr.error with
       | some err => Except.error (.ApiError err.message)
       | none =>
         match (gr.candidates.bind fun cs => cs.head?).bind
             (fun c => c.content.parts.head?) with
         | some p => Except.ok p.text
         | none => Except.error (.ParseError "No response from AI")) := by
    rw [complete_with_system_resp config hready, if_neg h429, hstatus, hbody]
    rfl
  refine ⟨?_, ?_, ?_⟩
  · intro err herr
    rw [hred, herr]
  · intro herr
    constructor
    · intro c cs p ps hc hp
      rw [hred, herr, hc]
      show (match c.content.parts.head? with
            | some p => Except.ok p.text
            | none => Except.error (AIError.ParseError "No response from AI")) =
          Except.ok p.text
      rw [hp]
      rfl
    · rintro (hc | hc | ⟨c, cs, hc, hp⟩)
      · rw [hred, herr, hc]
        rfl
      · rw [hred, herr, hc]
        rfl
      · rw [hred, herr, hc]
        show (match c.content.parts.head? with
              | some p => Except.ok p.text
              | none => Except.error (AIError.ParseError "No response from AI")) =
            Except.error (AIError.ParseError "No response from AI")
        rw [hp]
        rfl
  · rw [complete_with_system_resp config hready]
    rfl

theorem complete_success_response_witness :
    AIClient.complete_with_system ⟨"k", default_model, default_base_url, true⟩
        none "u"
        (.resp 200 (some "\x7b\"candidates\":[\x7b\"content\":\x7b\"parts\":[\x7b\"text\":\"hello\"\x7d]\x7d\x7d]\x7d")) =
      .ok "hello" :=
  (complete_success_response ⟨"k", default_model, default_base_url, true⟩ none "u"
    200 (some "\x7b\"candidates\":[\x7b\"content\":\x7b\"parts\":[\x7b\"text\":\"hello\"\x7d]\x7d\x7d]\x7d")
    ⟨some [⟨⟨none, [⟨"hello"⟩]⟩⟩], none⟩ rfl rfl rfl).2.2

/-- C10: when no platform configuration directory can be determined (the
config path resolves to `none`), `save` returns success without writing
anything and without reporting an error. -/
theorem save_without_config_path (c : AIConfig) (fs : SaveFs)
    (h : fs.config_path = none) :
    c.save fs = (.ok (), false) := by
  unfold AIConfig.save
  rw [h]

theorem save_without_config_path_witness :
    AIConfig.default.save ⟨none, true, true⟩ = (.ok (), false) :=
  save_without_config_path AIConfig.default ⟨none, true, true⟩ rfl

/-- C9: with `VIMGRAM_AI_KEY` set to the empty string, `load` still takes
the environment branch: the result has an empty credential and default
remaining fields whatever persisted file exists, and it is not ready. -/
theorem load_with_empty_env_key (file : Option String) :
    AIConfig.load ⟨some "", file⟩ = AIConfig.default ∧
    (AIConfig.load ⟨some "", file⟩).api_key = "" ∧
    (AIConfig.load ⟨some "", file⟩).is_ready = false :=
  ⟨rfl, rfl, rfl⟩

theorem load_with_empty_env_key_witness :
    AIConfig.load ⟨some "", some "\x7b\"api_key\":\"persisted\"\x7d"⟩ = AIConfig.default :=
  (load_with_empty_env_key (some "\x7b\"api_key\":\"persisted\"\x7d")).1

/-- C6: a 429 response yields `RateLimited(60)` — a fixed wait hint,
whatever the response body holds (present, absent, or any text). -/
theorem complete_429_rate_limited (config : AIConfig)
    (hready : config.is_ready = true) :
    ∀ (system : Option String) (user : String) (body : Option String),
      AIClient.complete_with_system config system user (.resp 429 body) =
        .error (.RateLimited 60) := by
  intro system user body
  unfold AIClient.complete_with_system
  rw [hready]
  rfl

theorem complete_429_rate_limited_witness :
    AIClient.complete_with_system
        ⟨"k", default_model, default_base_url, true⟩ none "u"
        (.resp 429 (some "retry-after: 5")) =
      .error (.RateLimited 60) :=
  complete_429_rate_limited ⟨"k", default_model, default_base_url, true⟩ rfl
    none "u" (some "retry-after: 5")

/-- C7: a non-success status other than 429 yields `ApiError` carrying the
status and the raw body; an unreadable body is replaced by the empty string
(no panic — the function is total). -/
theorem complete_non_success_api_error (config : AIConfig)
    (hready : config.is_ready = true) (status : Nat)
    (hfail : isSuccessStatus status = false) (h429 : status ≠ 429) :
    (∀ (system : Option String) (user : String) (body : Option String),
      AIClient.complete_with_system config system user (.resp status body) =
        .error (.ApiError (statusDisplay status ++ ": " ++ body.getD ""))) ∧
    (∀ (system : Option String) (user : String),
      AIClient.complete_with_system config system user (.resp status none) =
        .error (.ApiError (statusDisplay status ++ ": " ++ ""))) := by
  constructor
  · intro system user body
    rw [complete_with_system_resp config hready, if_neg h429, hfail]
    rfl
  · intro system user
    rw [complete_with_system_resp config hready, if_neg h429, hfail]
    rfl

theorem complete_non_success_api_error_witness :
    AIClient.complete_with_system
        ⟨"k", default_model, default_base_url, true⟩ none "u"
        (.resp 500 none) =
      .error (.ApiError ("500: ")) :=
  (complete_non_success_api_error ⟨"k", default_model, default_base_url, true⟩
    rfl 500 rfl (by decide)).2 none "u"

/-- C8: `generate_reply` picks the professional instruction for tone
`"formal"`, the detailed/technical instruction for `"technical"`, and the
casual instruction for every other value including absence; the user
message it sends is exactly the `Chat history:` label, the context and the
trailing `Draft a reply:` instruction, identically for every tone; and the
completion text is handed back unmodified. -/
theorem generate_reply_tone_selection :
    (AIClient.toneInstruction (some "formal") = "Use a professional, formal tone.") ∧
    (AIClient.toneInstruction (some "technical") =
      "Use a detailed, technical tone with specific terminology.") ∧
    (∀ tone : Option String, tone ≠ some "formal" → tone ≠ some "technical" →
      AIClient.toneInstruction tone = "Use a friendly, casual tone.") ∧
    (∀ context : String,
      AIClient.generateReplyUserMessage context =
        "Chat history:\n" ++ context ++ "\n\nDraft a reply:") ∧
    (∀ (context : String) (tone tone' : Option String),
      (AIClient.buildRequest (some (AIClient.generateReplySystem tone))
          (AIClient.generateReplyUserMessage context)).contents =
        (AIClient.buildRequest (some (AIClient.generateReplySystem tone'))
          (AIClient.generateReplyUserMessage context)).contents) ∧
    (∀ (config : AIConfig) (context : String) (tone : Option String)
        (outcome : HttpOutcome),
      AIClient.generate_reply config context tone outcome =
        AIClient.complete_with_system config
          (some (AIClient.generateReplySystem tone))
          (AIClient.generateReplyUserMessage context) outcome) := by
  refine ⟨rfl, rfl, ?_, fun _ => rfl, fun _ _ _ => rfl, fun _ _ _ _ => rfl⟩
  intro tone h1 h2
  unfold AIClient.toneInstruction
  rw [if_neg h1, if_neg h2]

theorem generate_reply_tone_selection_witness :
    AIClient.toneInstruction none = "Use a friendly, casual tone." :=
  generate_reply_tone_selection.2.2.1 none (by decide) (by decide)

/-- C4: `is_ready` holds exactly when the client is enabled with a
non-empty key, and with an empty key or disabled client every completion
entry point answers `NotConfigured` whatever the network would have done
(so no exchange is consulted). -/
theorem not_configured_short_circuit (config : AIConfig) :
    (config.is_ready = true ↔ (config.enabled = true ∧ config.api_key ≠ "")) ∧
    (config.api_key = "" ∨ config.enabled = false →
      ∀ (prompt input context query : String) (tone : Option String)
        (o₁ o₂ o₃ o₄ : HttpOutcome),
        AIClient.complete config prompt o₁ = .error .NotConfigured ∧
        AIClient.parse_command config input o₂ = .error .NotConfigured ∧
        AIClient.generate_reply config context tone o₃ = .error .NotConfigured ∧
        AIClient.code_assist config query o₄ = .error .NotConfigured) := by
  refine ⟨is_ready_iff config, ?_⟩
  intro h prompt input context query tone o₁ o₂ o₃ o₄
  have hnr := is_ready_eq_false config h
  refine ⟨complete_with_system_not_ready config hnr _ _ _, ?_, ?_, ?_⟩
  · unfold AIClient.parse_command
    rw [complete_with_system_not_ready config hnr _ _ _]
  · exact complete_with_system_not_ready config hnr _ _ _
  · exact complete_with_system_not_ready config hnr _ _ _

/-- C5: `load` is total and resolves in order: a present environment key
wins with defaults for the other fields (any persisted file ignored), else
a readable and parsable persisted file is used, else the default
configuration; in particular the environment value `"X"` beats a valid
persisted file. -/
theorem load_resolution_order (env : LoadEnv) :
    (∀ k, env.vimgram_ai_key = some k →
      AIConfig.load env =
        { api_key := k, model := default_model, base_url := default_base_url,
          enabled := true }) ∧
    (env.vimgram_ai_key = none →
      (∀ contents config, env.configFileContents = some contents →
        (jsonParse contents).bind decodeAIConfig = .ok config →
        AIConfig.load env = config) ∧
      (∀ contents e, env.configFileContents = some contents →
        (jsonParse contents).bind decodeAIConfig = .error e →
        AIConfig.load env = AIConfig.default) ∧
      (env.configFileContents = none → AIConfig.load env = AIConfig.default)) ∧
    AIConfig.load
        ⟨some "X", some "\x7b\"api_key\":\"persisted\",\"model\":\"other-model\"\x7d"⟩ =
      { api_key := "X", model := default_model, base_url := default_base_url,
        enabled := true } := by
  obtain ⟨ek, fc⟩ := env
  refine ⟨?_, ?_, rfl⟩
  · rintro k rfl
    rfl
  · rintro rfl
    refine ⟨?_, ?_, ?_⟩
    · rintro contents config rfl hdec
      show (match (jsonParse contents).bind decodeAIConfig with
            | .ok c => c
            | .error _ => AIConfig.default) = config
      rw [hdec]
    · rintro contents e rfl hdec
      show (match (jsonParse contents).bind decodeAIConfig with
            | .ok c => c
            | .error _ => AIConfig.default) = AIConfig.default
      rw [hdec]
    · rintro rfl
      rfl

theorem load_resolution_order_witness :
    AIConfig.load ⟨some "X", none⟩ =
      { api_key := "X", model := default_model, base_url := default_base_url,
        enabled := true } :=
  (load_resolution_order ⟨some "X", none⟩).1 "X" rfl

/-- C2: `parse_command`'s text stage trims the raw output, strips a leading
triple-backtick fence (optionally tagged `json`) together with the trailing
fence when one opens the text and otherwise decodes the trimmed text as-is;
JSON in each of the six action shapes decodes to the matching variant; and
the fenced mute example decodes to `Mute 3600`. -/
theorem parse_command_fence_stripping :
    (∀ response : String,
      AIClient.parseCommandText response =
        match (jsonParse (AIClient.stripCodeFence response)).bind decodeAICommand with
        | .ok cmd => .ok cmd
        | .error e =>
          .error (.ParseError ("Invalid JSON: " ++ e ++ " - Response: " ++ response))) ∧
    (∀ response : String, rustStartsWith (rustTrim response) "```" = false →
      AIClient.stripCodeFence response = rustTrim response) ∧
    (∀ response : String, rustStartsWith (rustTrim response) "```" = true →
      AIClient.stripCodeFence response =
        rustTrim (rustTrimEndMatches (rustTrimStartMatches
          (rustTrimStartMatches (rustTrim response) "```json") "```") "```")) ∧
    (∀ n : Nat, (n : Int) < 4294967296 →
      decodeAICommand (.obj [("action", .str "mute"),
          ("duration_seconds", .num (n : Int))]) = .ok (.Mute n)) ∧
    (decodeAICommand (.obj [("action", .str "unmute")]) = .ok .Unmute) ∧
    (∀ q, decodeAICommand (.obj [("action", .str "search"), ("query", .str q)]) =
      .ok (.Search q none)) ∧
    (∀ q fu, decodeAICommand (.obj [("action", .str "search"), ("query", .str q),
        ("from_user", .str fu)]) = .ok (.Search q (some fu))) ∧
    (∀ u t, decodeAICommand (.obj [("action", .str "send"), ("to", .str u),
        ("text", .str t)]) = .ok (.Send u t)) ∧
    (∀ t, decodeAICommand (.obj [("action", .str "reply"), ("tone", .str t)]) =
      .ok (.Reply (some t))) ∧
    (decodeAICommand (.obj [("action", .str "reply")]) = .ok (.Reply none)) ∧
    (∀ r, decodeAICommand (.obj [("action", .str "unknown"), ("reason", .str r)]) =
      .ok (.Unknown r)) ∧
    AIClient.parseCommandText
        "```json\n\x7b\"action\":\"mute\",\"duration_seconds\":3600\x7d\n```" =
      .ok (.Mute 3600) := by
  refine ⟨fun _ => rfl, ?_, ?_, ?_, rfl, ?_, ?_, ?_, ?_, rfl, ?_, rfl⟩
  · intro response h
    simp [AIClient.stripCodeFence, h]
  · intro response h
    simp [AIClient.stripCodeFence, h]
  · intro n h
    have h0 : (0 : Int) ≤ (n : Int) := Int.natCast_nonneg n
    simp [decodeAICommand, Json.getField, List.lookup, h0, h]
  · intro q
    simp [decodeAICommand, Json.getField, decodeStringField, decodeOptStringField,
      List.lookup]
  · intro q fu
    simp [decodeAICommand, Json.getField, decodeStringField, decodeOptStringField,
      List.lookup]
  · intro u t
    simp [decodeAICommand, Json.getField, decodeStringField, decodeOptStringField,
      List.lookup]
  · intro t
    simp [decodeAICommand, Json.getField, decodeStringField, decodeOptStringField,
      List.lookup]
  · intro r
    simp [decodeAICommand, Json.getField, decodeStringField, decodeOptStringField,
      List.lookup]

theorem parse_command_fence_stripping_witness :
    decodeAICommand (.obj [("action", .str "mute"),
        ("duration_seconds", .num (3600 : Int))]) = .ok (.Mute 3600) :=
  parse_command_fence_stripping.2.2.2.1 3600 (by decide)

/-- C3: when the fence-stripped text fails to decode as one of the six
action shapes, `parse_command` surfaces `ParseError` built from the decode
diagnostic and the raw upstream text and never yields a command; a decoded
`Unknown` can only come from JSON whose `action` tag is itself `unknown`;
and the explicit unknown example decodes to `Unknown "no match"`. -/
theorem parse_command_decode_failure_surfaces :
    (∀ response e : String,
      (jsonParse (AIClient.stripCodeFence response)).bind decodeAICommand = .error e →
      AIClient.parseCommandText response =
        .error (.ParseError ("Invalid JSON: " ++ e ++ " - Response: " ++ response)) ∧
      ∀ cmd : AICommand, AIClient.parseCommandText response ≠ .ok cmd) ∧
    (∀ (j : Json) (r : String), decodeAICommand j = .ok (.Unknown r) →
      j.getField "action" = some (.str "unknown")) ∧
    AIClient.parseCommandText "\x7b\"action\":\"unknown\",\"reason\":\"no match\"\x7d" =
      .ok (.Unknown "no match") := by
  refine ⟨?_, ?_, rfl⟩
  · intro response e h
    have hr : AIClient.parseCommandText response =
        .error (.ParseError ("Invalid JSON: " ++ e ++ " - Response: " ++ response)) := by
      unfold AIClient.parseCommandText
      rw [h]
    exact ⟨hr, fun cmd hcmd => by rw [hr] at hcmd; exact Except.noConfusion hcmd⟩
  · intro j r h
    unfold decodeAICommand at h
    repeat' split at h
    all_goals simp_all

theorem parse_command_decode_failure_surfaces_witness :
    AIClient.parseCommandText "not json" =
      .error (.ParseError "Invalid JSON: unrecognised literal - Response: not json") :=
  (parse_command_decode_failure_surfaces.1 "not json" "unrecognised literal"
    rfl).1

theorem not_configured_short_circuit_witness :
    AIClient.complete AIConfig.default "hi" (.netFail "refused") =
      .error .NotConfigured :=
  ((not_configured_short_circuit AIConfig.default).2 (Or.inl rfl) "hi" "i" "c" "q"
    none (.netFail "refused") (.netFail "x") (.netFail "x") (.netFail "x")).1

end Vimgram
